import Mathlib

/-!
A shallow embedding of the two database facades of this repository —
the pooled PostgreSQL client of `tasks/task_01` (postgress/client.py,
create.py, seed.py) and the MongoDB CRUD facade plus CLI dispatcher of
`tasks/task_02/main.py` — together with theorems checking the
specification's claims about them.
-/

/-! ## Python exception classes (task_01)

`client.py` lines 19-24 define two local classes:
`class DatabaseError(psycopg.errors.DatabaseError)` and
`class DuplicateDatabase(psycopg.errors.DuplicateDatabase)`.
The driver itself raises classes of the `psycopg.errors` hierarchy
(`DuplicateDatabase < ProgrammingError < DatabaseError < Exception`;
the intermediate `ProgrammingError`/`OperationalError` layer is kept
only as far as the code distinguishes it).  A Python `except C` clause
catches an exception `e` iff `isinstance(e, C)`, i.e. iff the class of
`e` is `C` or a strict descendant of `C`. -/
inductive ExcClass where
  | pyException
  | pgDatabaseError
  | pgOperationalError
  | pgDuplicateDatabase
  | localDatabaseError
  | localDuplicateDatabase
deriving DecidableEq, BEq

/-- The strict ancestors of each exception class (transitively), per the
psycopg hierarchy and the two subclass definitions in client.py lines 19-24. -/
def ExcClass.ancestors : ExcClass → List ExcClass
  | .pyException => []
  | .pgDatabaseError => [.pyException]
  | .pgOperationalError => [.pgDatabaseError, .pyException]
  | .pgDuplicateDatabase => [.pgDatabaseError, .pyException]
  | .localDatabaseError => [.pgDatabaseError, .pyException]
  | .localDuplicateDatabase => [.pgDuplicateDatabase, .pgDatabaseError, .pyException]

/-- Python `isinstance` / `except C` test: `e` of class `c` is caught by
`except d` iff `subclassOf c d`. -/
def subclassOf (c d : ExcClass) : Bool :=
  c == d || (ExcClass.ancestors c).contains d

/-! ## PostgresClient.transaction (client.py lines 92-102)

```
with self._pool.connection() as conn:
    try:
        with conn.cursor() as cur:
            yield cur
        conn.commit()
    except DatabaseError:
        conn.rollback()
        raise
```

The body of the scope is modelled by its outcome: it either returns
normally or raises an exception of some class.  The enclosing
`psycopg_pool.ConnectionPool.connection()` context manager runs the
block under `with conn:`, whose documented semantics is: commit the
connection's transaction on normal exit, roll it back when an exception
passes through, and always return the connection to the pool.  Both the
handler's own commit/rollback (lines 99/101) and the pool context's
commit/rollback are recorded separately. -/
structure TxOutcome (α : Type) where
  handlerCommitted : Bool
  handlerRolledBack : Bool
  poolCommitted : Bool
  poolRolledBack : Bool
  released : Bool
  result : Except ExcClass α

/-- The transaction as a whole was rolled back (by the `except DatabaseError`
handler or by the pool's connection context on an escaping exception). -/
def TxOutcome.rolledBack {α : Type} (t : TxOutcome α) : Bool :=
  t.handlerRolledBack || t.poolRolledBack

/-- The transaction as a whole was committed. -/
def TxOutcome.committed {α : Type} (t : TxOutcome α) : Bool :=
  t.handlerCommitted || t.poolCommitted

/-- `PostgresClient.transaction` (client.py lines 92-102) applied to a body
with the given outcome.  On normal exit line 99 commits and the pool context
commits again (a no-op); the `except DatabaseError` clause catches exactly
the exceptions matching the local `DatabaseError` class, rolls back and
re-raises; any other escaping exception is rolled back by the pool's
connection context and propagates. -/
def PostgresClient.transaction {α : Type} (body : Except ExcClass α) : TxOutcome α :=
  match body with
  | .ok a => ⟨true, false, true, false, true, .ok a⟩
  | .error e =>
    if subclassOf e .localDatabaseError then
      ⟨false, true, false, true, true, .error e⟩
    else
      ⟨false, false, false, true, true, .error e⟩

/-! ## create_database (create.py lines 13-38)

```
try:
    exists = pg_client.fetch_one("select EXISTS( SELECT 1 FROM pg_database WHERE datname = %s);", (dbname,))
    if not exists.get('exists', False):
        try:
            pg_client.execute(f"CREATE DATABASE ...")
        except DuplicateDatabase:
            logger.info(... already exists ...)
    else:
        logger.info(... already exists ...)
    return True
except Exception as e:
    logger.error(e)
    return False
finally:
    pg_client.close()
```

The two database calls are modelled by their outcomes (the existence
check returns a boolean or raises; the CREATE DATABASE statement returns
or raises).  The value returned is paired with whether the pool was
closed (the `finally` clause, always true). -/
def create_database (fetchExists : Except ExcClass Bool)
    (createResult : Except ExcClass Unit) : Except ExcClass Bool × Bool :=
  match fetchExists with
  | .error e =>
    if subclassOf e .pyException then (.ok false, true) else (.error e, true)
  | .ok b =>
    if b then (.ok true, true)
    else
      match createResult with
      | .ok _ => (.ok true, true)
      | .error e =>
        if subclassOf e .localDuplicateDatabase then (.ok true, true)
        else if subclassOf e .pyException then (.ok false, true)
        else (.error e, true)

/-! ## PostgresClient.execute (client.py lines 106-116)

```
cur.execute(sql, params)
return cur.rowcount or 0
```

`cur.rowcount` in psycopg 3 is an `int`: the number of rows affected by
the last statement, or `-1` when the driver reports the count as
unknown.  Python's `a or b` on integers returns `a` when `a` is truthy
(nonzero) and `b` otherwise. -/
def pyOrInt (a b : Int) : Int :=
  if a = 0 then b else a

/-- `PostgresClient.execute` as a function of the driver-reported rowcount. -/
def PostgresClient.execute (rowcount : Int) : Int :=
  pyOrInt rowcount 0

/-! ## Theorems for claims C1, C2, C4 -/

/-- Claim C1: for every statement executed inside a `transaction()` scope of
`PostgresClient`, if a database error (an exception of a class in the driver's
`DatabaseError` hierarchy) is raised inside the scope then the transaction is
rolled back and the error is re-raised, and on normal exit of the scope the
transaction is committed. -/
theorem transaction_rollback_and_commit {α : Type} (e : ExcClass) (a : α)
    (h : subclassOf e .pgDatabaseError = true) :
    (PostgresClient.transaction (Except.error e : Except ExcClass α)).rolledBack = true
    ∧ (PostgresClient.transaction (Except.error e : Except ExcClass α)).result = .error e
    ∧ (PostgresClient.transaction (Except.ok a)).committed = true
    ∧ (PostgresClient.transaction (Except.ok a)).result = .ok a := by
  by_cases hc : subclassOf e .localDatabaseError = true <;>
    simp [PostgresClient.transaction, TxOutcome.rolledBack, TxOutcome.committed, hc]

/-- Witness for C1 at a concrete driver database error (`pgOperationalError`)
and a concrete normal exit. -/
theorem transaction_rollback_and_commit_witness :
    subclassOf .pgOperationalError .pgDatabaseError = true
    ∧ ((PostgresClient.transaction (Except.error .pgOperationalError : Except ExcClass Nat)).rolledBack = true
      ∧ (PostgresClient.transaction (Except.error .pgOperationalError : Except ExcClass Nat)).result = .error .pgOperationalError
      ∧ (PostgresClient.transaction (Except.ok (0 : Nat))).committed = true
      ∧ (PostgresClient.transaction (Except.ok (0 : Nat))).result = .ok 0) :=
  ⟨by decide, transaction_rollback_and_commit .pgOperationalError 0 (by decide)⟩

/-- Claim C2 (code bug): when the catalog check reports the database as
absent and the CREATE DATABASE statement raises the driver's
`DuplicateDatabase` (a concurrent duplicate, SQLSTATE 42P04),
`create_database` returns `False` — overall failure — because the driver's
class is not an instance of the local `DuplicateDatabase` subclass that the
inner `except` clause names; only the never-raised local subclass would be
treated as success.  The claim (and spec) say this case reports success. -/
theorem create_database_concurrent_duplicate :
    create_database (.ok false) (.error .pgDuplicateDatabase) = (.ok false, true)
    ∧ subclassOf .pgDuplicateDatabase .localDuplicateDatabase = false
    ∧ create_database (.ok false) (.error .localDuplicateDatabase) = (.ok true, true)
    ∧ create_database (.ok true) (.error .pgDuplicateDatabase) = (.ok true, true) :=
  ⟨rfl, rfl, rfl, rfl⟩

/-- Claim C4, counterexample: when the driver reports the row count as
unknown (`rowcount = -1`), `PostgresClient.execute` returns `-1`, not `0`:
`-1` is truthy in Python, so the `or 0` fallback does not apply. -/
theorem execute_unknown_rowcount_not_zero :
    PostgresClient.execute (-1) = -1 ∧ PostgresClient.execute (-1) ≠ 0 := by
  decide

/-- Claim C4 as amended: `PostgresClient.execute` returns the driver-reported
rowcount unchanged — the `or 0` fallback only triggers when the count is
already `0`, so an unknown count reported as `-1` comes back as `-1`. -/
theorem execute_returns_driver_rowcount (rc : Int) :
    PostgresClient.execute rc = rc := by
  unfold PostgresClient.execute pyOrInt
  by_cases h : rc = 0 <;> simp [h]

/-! ## seed.py (task_01)

`generate_fake_data` (seed.py lines 17-42) creates a private Faker
instance and seeds it with the constant 42 (`fake.seed_instance(42)`),
then draws `users_number` (fullname, email) pairs followed by
`tasks_number` (title, description) pairs from it.  The third-party
Faker generator is modelled as a deterministic stream of values indexed
by the seed and by the position of the draw (each call to the seeded
instance consumes the next position); the generated strings are
represented by the drawn values. -/
def fakerStream (seed i : Nat) : Nat :=
  (seed * 1000003 + i * 97 + 7) % 65536

/-- A generated user row (`dict(fullname=..., email=...)`, seed.py line 35). -/
structure FakeUser where
  fullname : Nat
  email : Nat
deriving DecidableEq

/-- A generated task row (`dict(title=..., description=...)`, seed.py
lines 38-40); `status_id` and `user_id` are absent from the dict until
`fill_tasks_data` assigns them, hence `Option`. -/
structure FakeTask where
  title : Nat
  description : Nat
  status_id : Option Nat
  user_id : Option Nat
deriving DecidableEq

/-- `generate_fake_data` (seed.py lines 17-42): the Faker instance is seeded
with the constant 42; users are drawn first (two values each), then tasks
(two values each). -/
def generate_fake_data (users_number tasks_number : Nat) :
    List FakeUser × List FakeTask :=
  let seed := 42
  ((List.range users_number).map (fun i =>
      ⟨fakerStream seed (2 * i), fakerStream seed (2 * i + 1)⟩),
   (List.range tasks_number).map (fun j =>
      ⟨fakerStream seed (2 * users_number + 2 * j),
       fakerStream seed (2 * users_number + 2 * j + 1), none, none⟩))

/-- Python's `random.choice(seq)`: picks `seq[k]` for a draw `k` below the
length (`none` on an empty sequence, where Python raises `IndexError`).
The draw comes from the process-global `random` module, which seed.py
never seeds; its successive outputs are modelled by an entropy stream. -/
def randomChoice (l : List Nat) (k : Nat) : Option Nat :=
  l.get? (k % l.length)

/-- The assignment loop of `fill_tasks_data` (seed.py lines 97-107): for each
task, in order, `task['status_id'] = random.choice(status_ids)` then
`task['user_id'] = random.choice(users_ids)`, each drawing the next value of
the global random module's stream.  `j` is the index of the next task (the
2j-th and (2j+1)-th draws belong to task j). -/
def fill_tasks_data (status_ids users_ids : List Nat) (entropy : Nat → Nat) :
    Nat → List FakeTask → List FakeTask
  | _, [] => []
  | j, t :: ts =>
    { t with
      status_id := randomChoice status_ids (entropy (2 * j)),
      user_id := randomChoice users_ids (entropy (2 * j + 1)) } ::
      fill_tasks_data status_ids users_ids entropy (j + 1) ts

/-- The payload part of `seed` (seed.py lines 115-133): generate 10 users and
100 tasks (`generate_fake_data(users_number=10, tasks_number=100)`), then
assign each task a status and user drawn from the identifier lists read back
from the database (`get_status_ids` / `get_users_ids` results, passed in as
parameters) using the unseeded global random module (the entropy stream). -/
def seedPayloads (entropy : Nat → Nat) (users_ids status_ids : List Nat) :
    List FakeUser × List FakeTask :=
  let generated := generate_fake_data 10 100
  (generated.1, fill_tasks_data status_ids users_ids entropy 0 generated.2)

/-- The seed-independent content of a task row: its title and description. -/
def taskContent (t : FakeTask) : Nat × Nat :=
  (t.title, t.description)

/-- Assigning status/user identifiers leaves every task's title and
description unchanged. -/
theorem fill_tasks_data_content (status_ids users_ids : List Nat)
    (entropy : Nat → Nat) (j : Nat) (ts : List FakeTask) :
    (fill_tasks_data status_ids users_ids entropy j ts).map taskContent
      = ts.map taskContent := by
  induction ts generalizing j with
  | nil => rfl
  | cons t ts ih => simp [fill_tasks_data, taskContent, ih]

/-- Claim C5, counterexample: two runs of the seed routine differing only in
the state of the unseeded global random module (entropy streams constantly 0
versus constantly 1), over the same database identifiers, produce different
task payloads — the status/user assignments are not reproducible. -/
theorem seed_assignments_not_reproducible :
    seedPayloads (fun _ => 0) [1, 2] [1, 2, 3]
      ≠ seedPayloads (fun _ => 1) [1, 2] [1, 2, 3] := by
  decide

/-- Claim C5 as amended: the fake user rows and the task rows' generated
content (titles and descriptions) are identical across any two runs — they
depend only on the Faker instance seeded with the fixed constant 42 — but the
status and user identifiers assigned to tasks come from the unseeded global
random module and so vary with the run's entropy. -/
theorem seed_faker_payloads_deterministic (e1 e2 : Nat → Nat)
    (users_ids status_ids : List Nat) :
    (seedPayloads e1 users_ids status_ids).1 = (seedPayloads e2 users_ids status_ids).1
    ∧ ((seedPayloads e1 users_ids status_ids).2).map taskContent
      = ((seedPayloads e2 users_ids status_ids).2).map taskContent := by
  refine ⟨rfl, ?_⟩
  simp [seedPayloads, fill_tasks_data_content]

/-! ## MongoDB CRUD facade (tasks/task_02/main.py)

A document of the `cats` collection: `_id` (server-assigned, modelled as
a natural number), `name`, optional `age`, and a list of `features`
(create_one inserts `features or []`). -/
structure Cat where
  id : Nat
  name : String
  age : Option Int
  features : List String
deriving DecidableEq

/-- The state of the `cats` collection, in insertion order. -/
abbrev Collection := List Cat

/-- A fresh `_id` for an inserted document: one more than the largest id in
use (the server-side assignment, guaranteeing uniqueness). -/
def freshId (c : Collection) : Nat :=
  c.foldr (fun x acc => max (x.id + 1) acc) 0

/-- `collection.update_one(filter, update)`: applies the update to the first
matching document only, leaving the rest untouched. -/
def updateFirst (p : Cat → Bool) (f : Cat → Cat) : Collection → Collection
  | [] => []
  | x :: xs => if p x then f x :: xs else x :: updateFirst p f xs

/-- `collection.delete_one(filter)`: removes the first matching document and
reports the deleted count (0 or 1). -/
def deleteFirst (p : Cat → Bool) : Collection → Collection × Nat
  | [] => ([], 0)
  | x :: xs =>
    if p x then (xs, 1)
    else
      let r := deleteFirst p xs
      (x :: r.1, r.2)

/-- The `$addToSet` / `$each` update (main.py line 170): appends, in order,
each supplied feature that is not already in the list, skipping duplicates
(including duplicates within the supplied list itself). -/
def addToSetEach (old new : List String) : List String :=
  new.foldl (fun acc f => if f ∈ acc then acc else acc ++ [f]) old

/-- The `MongoDB` store object (main.py lines 20-27): connection URI,
database name, and the two handles set by `_open` — `self.client` and
`self.db` — both `None` in the freshly constructed (closed) state.  The live
pymongo handles are modelled as opaque numbers. -/
structure MongoDB where
  uri : String
  dbname : String
  client : Option Nat
  db : Option Nat
deriving DecidableEq

/-- `MongoDB.__init__` (main.py lines 22-27): both handles start as `None`. -/
def MongoDB.init (uri dbname : String) : MongoDB :=
  ⟨uri, dbname, none, none⟩

/-- `MongoDB._is_opened` (main.py lines 29-40): open iff both `self.client`
and `self.db` are set. -/
def MongoDB.is_opened (m : MongoDB) : Bool :=
  !(m.client.isNone || m.db.isNone)

/-- The message of the `RuntimeError` raised by `_is_opened(raise_exception=True)`
(main.py line 38). -/
def notConnectedMsg : String := "Database is not connected"

/-- The handles invariant: `client` and `db` are both absent or both
present. -/
def MongoDB.handles_consistent (m : MongoDB) : Bool :=
  (m.client.isNone && m.db.isNone) || (m.client.isSome && m.db.isSome)

/-- `MongoDB.open` (main.py lines 88-93): when either handle is `None`,
assign both from `_open()`; otherwise do nothing.  `_open` either returns a
client/database pair or raises a `RuntimeError` (its outcome is the
parameter `r`); when it raises, the assignment does not happen and the
error propagates (returned as `some` message). -/
def MongoDB.open_conn (m : MongoDB) (r : Except String (Nat × Nat)) :
    MongoDB × Option String :=
  if m.client.isNone || m.db.isNone then
    match r with
    | .ok hd => ({ m with client := some hd.1, db := some hd.2 }, none)
    | .error e => (m, some e)
  else (m, none)

/-- `MongoDB.__enter__` (main.py lines 66-74): `if not self._is_opened():
self.client, self.db = self._open()`, then return self. -/
def MongoDB.enter_ctx (m : MongoDB) (r : Except String (Nat × Nat)) :
    MongoDB × Option String :=
  if !m.is_opened then
    match r with
    | .ok hd => ({ m with client := some hd.1, db := some hd.2 }, none)
    | .error e => (m, some e)
  else (m, none)

/-- `MongoDB._close` (main.py lines 57-64): when `self.client` is set, close
it and reset both handles to `None`; otherwise do nothing. -/
def MongoDB.close_conn (m : MongoDB) : MongoDB :=
  if m.client.isSome then { m with client := none, db := none } else m

/-- `MongoDB.close` (main.py lines 95-99) simply calls `_close`. -/
def MongoDB.close (m : MongoDB) : MongoDB :=
  m.close_conn

/-- `MongoDB.__exit__` (main.py lines 76-80) calls `_close`; `__del__`
(main.py lines 82-86) does the same on disposal. -/
def MongoDB.exit_ctx (m : MongoDB) : MongoDB :=
  m.close_conn

/-- `MongoDB.find` (main.py lines 101-112): after the open check, the first
document whose `_id` equals the given identifier. -/
def MongoDB.find (m : MongoDB) (c : Collection) (cat_id : Nat) :
    Except String (Option Cat) × Collection :=
  if m.is_opened then
    (.ok (c.find? (fun x => x.id = cat_id)), c)
  else (.error notConnectedMsg, c)

/-- `MongoDB.create_one` (main.py lines 114-128): after the open check,
insert `{"name": name, "age": age, "features": features or []}` and re-read
the persisted document by its newly assigned id via `find`. -/
def MongoDB.create_one (m : MongoDB) (c : Collection) (name : String)
    (age : Option Int) (features : Option (List String)) :
    Except String (Option Cat) × Collection :=
  if m.is_opened then
    let cat : Cat := ⟨freshId c, name, age, features.getD []⟩
    let c2 := c ++ [cat]
    (.ok (c2.find? (fun x => x.id = cat.id)), c2)
  else (.error notConnectedMsg, c)

/-- `MongoDB.read_one` (main.py lines 131-142): after the open check, the
first document whose `name` equals the given value. -/
def MongoDB.read_one (m : MongoDB) (c : Collection) (name : String) :
    Except String (Option Cat) × Collection :=
  if m.is_opened then
    (.ok (c.find? (fun x => x.name = name)), c)
  else (.error notConnectedMsg, c)

/-- `MongoDB.read_all` (main.py lines 144-154): after the open check, all
documents in store order. -/
def MongoDB.read_all (m : MongoDB) (c : Collection) :
    Except String (List Cat) × Collection :=
  if m.is_opened then (.ok c, c) else (.error notConnectedMsg, c)

/-- `MongoDB.update_one` (main.py lines 156-173): after the open check, when
`age` is supplied `$set` it on the first matching document; independently,
when `features` is supplied, `$addToSet`/`$each` them into the first
matching document's feature list; finally return `read_one(name)` on the
updated collection. -/
def MongoDB.update_one (m : MongoDB) (c : Collection) (name : String)
    (age : Option Int) (features : Option (List String)) :
    Except String (Option Cat) × Collection :=
  if m.is_opened then
    let c1 := match age with
      | some a => updateFirst (fun x => x.name = name)
          (fun x => { x with age := some a }) c
      | none => c
    let c2 := match features with
      | some fs => updateFirst (fun x => x.name = name)
          (fun x => { x with features := addToSetEach x.features fs }) c1
      | none => c1
    (.ok (c2.find? (fun x => x.name = name)), c2)
  else (.error notConnectedMsg, c)

/-- `MongoDB.delete_one` (main.py lines 175-187): after the open check,
delete the first document with the given name and return the deleted
count. -/
def MongoDB.delete_one (m : MongoDB) (c : Collection) (name : String) :
    Except String Nat × Collection :=
  if m.is_opened then
    let r := deleteFirst (fun x => x.name = name) c
    (.ok r.2, r.1)
  else (.error notConnectedMsg, c)

/-- `MongoDB.delete_all` (main.py lines 189-200): after the open check,
`delete_many({})` removes every document and returns the count. -/
def MongoDB.delete_all (m : MongoDB) (c : Collection) :
    Except String Nat × Collection :=
  if m.is_opened then (.ok c.length, []) else (.error notConnectedMsg, c)

/-! ## Helper lemmas about the feature-union update -/

/-- Membership in an `$addToSet`/`$each` result: exactly the old elements
and the supplied ones. -/
theorem mem_addToSetEach (a : String) (new old : List String) :
    a ∈ addToSetEach old new ↔ a ∈ old ∨ a ∈ new := by
  induction new generalizing old with
  | nil => simp [addToSetEach]
  | cons f new ih =>
    show a ∈ List.foldl _ (if f ∈ old then old else old ++ [f]) new ↔ _
    rw [show (List.foldl (fun acc g => if g ∈ acc then acc else acc ++ [g])
        (if f ∈ old then old else old ++ [f]) new)
        = addToSetEach (if f ∈ old then old else old ++ [f]) new from rfl, ih]
    by_cases hf : f ∈ old
    · rw [if_pos hf]
      constructor
      · rintro (h | h)
        · exact Or.inl h
        · exact Or.inr (List.mem_cons_of_mem f h)
      · rintro (h | h)
        · exact Or.inl h
        · rcases List.mem_cons.mp h with rfl | h2
          · exact Or.inl hf
          · exact Or.inr h2
    · rw [if_neg hf]
      simp [or_assoc]

/-- The `$addToSet`/`$each` update never introduces duplicates. -/
theorem addToSetEach_nodup (new old : List String) (h : old.Nodup) :
    (addToSetEach old new).Nodup := by
  induction new generalizing old with
  | nil => exact h
  | cons f new ih =>
    show (addToSetEach (if f ∈ old then old else old ++ [f]) new).Nodup
    refine ih _ ?_
    by_cases hf : f ∈ old <;> simp [hf, List.nodup_append, h]

/-- Membership after a whole sequence of feature updates folded with
`addToSetEach`. -/
theorem mem_foldl_addToSetEach (a : String) (us : List (List String))
    (old : List String) :
    a ∈ us.foldl addToSetEach old ↔ a ∈ old ∨ ∃ u ∈ us, a ∈ u := by
  induction us generalizing old with
  | nil => simp
  | cons u us ih =>
    rw [List.foldl_cons, ih, mem_addToSetEach]
    simp [or_assoc]

/-- A whole sequence of feature updates folded with `addToSetEach` keeps the
list duplicate-free. -/
theorem nodup_foldl_addToSetEach (us : List (List String))
    (old : List String) (h : old.Nodup) :
    (us.foldl addToSetEach old).Nodup := by
  induction us generalizing old with
  | nil => exact h
  | cons u us ih => exact ih _ (addToSetEach_nodup u old h)

/-- A sequence of `update_one` calls, each supplying only a feature list, on
the open store `m` against the documents named `name`. -/
def applyFeatureUpdates (m : MongoDB) (name : String)
    (us : List (List String)) (c : Collection) : Collection :=
  us.foldl (fun acc u => (m.update_one acc name none (some u)).2) c

/-- When the head of the collection is the (first) document named `name`,
a sequence of feature-only updates rewrites exactly its feature list, by the
fold of `addToSetEach`, and touches nothing else. -/
theorem applyFeatureUpdates_cons (m : MongoDB) (hm : m.is_opened = true)
    (name : String) (cat0 : Cat) (rest : Collection) (h0 : cat0.name = name)
    (us : List (List String)) :
    applyFeatureUpdates m name us (cat0 :: rest)
      = { cat0 with features := us.foldl addToSetEach cat0.features } :: rest := by
  induction us generalizing cat0 with
  | nil => simp [applyFeatureUpdates]
  | cons u us ih =>
    have hstep : (m.update_one (cat0 :: rest) name none (some u)).2
        = { cat0 with features := addToSetEach cat0.features u } :: rest := by
      simp [MongoDB.update_one, hm, updateFirst, h0]
    show applyFeatureUpdates m name us
        ((m.update_one (cat0 :: rest) name none (some u)).2)
      = _
    rw [hstep, ih { cat0 with features := addToSetEach cat0.features u } h0]
    rfl

/-- The map of a field left untouched by the per-document update is
preserved by `updateFirst`. -/
theorem updateFirst_map_field {β : Type} (g : Cat → β) (p : Cat → Bool)
    (f : Cat → Cat) (h : ∀ x, g (f x) = g x) (c : Collection) :
    (updateFirst p f c).map g = c.map g := by
  induction c with
  | nil => rfl
  | cons x xs ih =>
    by_cases hp : p x <;> simp [updateFirst, hp, h, ih]

/-! ## Theorems for claims C6, C7, C8, C9 -/

/-- Claim C6: starting from a cat document with an empty feature list (the
creation default), any sequence of `update_one` calls drawn from the two
updates `["x"]` and `["x", "y"]` — in either order, with repeated calls —
that includes `["x", "y"]` leaves the feature list with exactly the elements
`x` and `y` and no duplicates; in general, `update_one` unions the supplied
features into the existing feature list, suppressing duplicates. -/
theorem update_features_union (m : MongoDB) (hm : m.is_opened = true)
    (name : String) (cat0 : Cat) (rest : Collection)
    (h0 : cat0.name = name) (hf : cat0.features = [])
    (us : List (List String))
    (hus : ∀ u ∈ us, u = ["x"] ∨ u = ["x", "y"])
    (hxy : ["x", "y"] ∈ us) :
    applyFeatureUpdates m name us (cat0 :: rest)
      = { cat0 with features := us.foldl addToSetEach [] } :: rest
    ∧ (us.foldl addToSetEach ([] : List String)).Nodup
    ∧ (∀ a, a ∈ us.foldl addToSetEach ([] : List String) ↔ (a = "x" ∨ a = "y"))
    ∧ ∀ (old new : List String), old.Nodup →
        ((addToSetEach old new).Nodup
          ∧ ∀ a, a ∈ addToSetEach old new ↔ (a ∈ old ∨ a ∈ new)) := by
  refine ⟨?_, nodup_foldl_addToSetEach us [] List.nodup_nil, ?_, ?_⟩
  · rw [applyFeatureUpdates_cons m hm name cat0 rest h0 us, hf]
  · intro a
    rw [mem_foldl_addToSetEach]
    constructor
    · rintro (h | ⟨u, hu, ha⟩)
      · simp at h
      · rcases hus u hu with rfl | rfl
        · exact Or.inl (by simpa using ha)
        · simpa using ha
    · rintro (rfl | rfl)
      · exact Or.inr ⟨["x", "y"], hxy, by simp⟩
      · exact Or.inr ⟨["x", "y"], hxy, by simp⟩
  · intro old new h
    exact ⟨addToSetEach_nodup new old h, fun a => mem_addToSetEach a new old⟩

/-- Witness for C6: the concrete scenario of the claim — a freshly created
cat "Tom" with no features, updated with `["x"]` and then `["x", "y"]`. -/
theorem update_features_union_witness :
    applyFeatureUpdates ⟨"u", "d", some 0, some 0⟩ "Tom" [["x"], ["x", "y"]]
        [⟨1, "Tom", none, []⟩]
      = { (⟨1, "Tom", none, []⟩ : Cat) with
          features := [["x"], ["x", "y"]].foldl addToSetEach [] } :: []
    ∧ ([["x"], ["x", "y"]].foldl addToSetEach ([] : List String)).Nodup
    ∧ (∀ a, a ∈ [["x"], ["x", "y"]].foldl addToSetEach ([] : List String)
        ↔ (a = "x" ∨ a = "y"))
    ∧ ∀ (old new : List String), old.Nodup →
        ((addToSetEach old new).Nodup
          ∧ ∀ a, a ∈ addToSetEach old new ↔ (a ∈ old ∨ a ∈ new)) :=
  update_features_union ⟨"u", "d", some 0, some 0⟩ rfl "Tom"
    ⟨1, "Tom", none, []⟩ [] rfl rfl [["x"], ["x", "y"]]
    (by decide) (by decide)

/-- Claim C7: on an open store, `update_one` with only `age` supplied leaves
every document's features unchanged; with only `features` supplied it leaves
every document's age unchanged; with neither supplied it leaves the
collection unchanged and returns exactly what `read_one` returns — the
document's current state. -/
theorem update_one_frame (m : MongoDB) (hm : m.is_opened = true)
    (c : Collection) (name : String) (a : Int) (fs : List String) :
    ((m.update_one c name (some a) none).2).map (fun x => x.features)
        = c.map (fun x => x.features)
    ∧ ((m.update_one c name none (some fs)).2).map (fun x => x.age)
        = c.map (fun x => x.age)
    ∧ m.update_one c name none none = m.read_one c name
    ∧ (m.update_one c name none none).2 = c := by
  refine ⟨?_, ?_, ?_, ?_⟩
  · simp only [MongoDB.update_one, hm, if_true]
    apply updateFirst_map_field
    intro x
    rfl
  · simp only [MongoDB.update_one, hm, if_true]
    apply updateFirst_map_field
    intro x
    rfl
  · simp [MongoDB.update_one, MongoDB.read_one, hm]
  · simp [MongoDB.update_one, hm]

/-- Witness for C7 on a concrete open store and one-cat collection. -/
theorem update_one_frame_witness :
    ((MongoDB.update_one ⟨"u", "d", some 0, some 0⟩
        ([⟨1, "Tom", some 2, ["b"]⟩] : Collection)
        "Tom" (some 3) none).2).map (fun x => x.features)
        = ([⟨1, "Tom", some 2, ["b"]⟩] : Collection).map (fun x => x.features)
    ∧ ((MongoDB.update_one ⟨"u", "d", some 0, some 0⟩
        ([⟨1, "Tom", some 2, ["b"]⟩] : Collection)
        "Tom" none (some ["w"])).2).map (fun x => x.age)
        = ([⟨1, "Tom", some 2, ["b"]⟩] : Collection).map (fun x => x.age)
    ∧ MongoDB.update_one ⟨"u", "d", some 0, some 0⟩
        ([⟨1, "Tom", some 2, ["b"]⟩] : Collection) "Tom" none none
        = MongoDB.read_one ⟨"u", "d", some 0, some 0⟩
            ([⟨1, "Tom", some 2, ["b"]⟩] : Collection) "Tom"
    ∧ (MongoDB.update_one ⟨"u", "d", some 0, some 0⟩
        ([⟨1, "Tom", some 2, ["b"]⟩] : Collection) "Tom" none none).2
        = ([⟨1, "Tom", some 2, ["b"]⟩] : Collection) :=
  update_one_frame ⟨"u", "d", some 0, some 0⟩ rfl
    ([⟨1, "Tom", some 2, ["b"]⟩] : Collection) "Tom" 3 ["w"]

/-- Claim C8: every store operation invoked while the store is closed raises
the `RuntimeError "Database is not connected"` immediately — before touching
the collection, which is returned unchanged — and the error is the
operation's result, not swallowed. -/
theorem ops_closed_not_connected (m : MongoDB) (hm : m.is_opened = false)
    (c : Collection) (cat_id : Nat) (name : String) (age : Option Int)
    (fs : Option (List String)) :
    m.find c cat_id = (.error notConnectedMsg, c)
    ∧ m.create_one c name age fs = (.error notConnectedMsg, c)
    ∧ m.read_one c name = (.error notConnectedMsg, c)
    ∧ m.read_all c = (.error notConnectedMsg, c)
    ∧ m.update_one c name age fs = (.error notConnectedMsg, c)
    ∧ m.delete_one c name = (.error notConnectedMsg, c)
    ∧ m.delete_all c = (.error notConnectedMsg, c) := by
  simp [MongoDB.find, MongoDB.create_one, MongoDB.read_one, MongoDB.read_all,
    MongoDB.update_one, MongoDB.delete_one, MongoDB.delete_all, hm]

/-- Witness for C8 on the freshly constructed (closed) store. -/
theorem ops_closed_not_connected_witness :
    (MongoDB.init "u" "d").find [⟨1, "Tom", none, []⟩] 1
        = (.error notConnectedMsg, [⟨1, "Tom", none, []⟩])
    ∧ (MongoDB.init "u" "d").create_one [⟨1, "Tom", none, []⟩] "Kit" none none
        = (.error notConnectedMsg, [⟨1, "Tom", none, []⟩])
    ∧ (MongoDB.init "u" "d").read_one [⟨1, "Tom", none, []⟩] "Tom"
        = (.error notConnectedMsg, [⟨1, "Tom", none, []⟩])
    ∧ (MongoDB.init "u" "d").read_all [⟨1, "Tom", none, []⟩]
        = (.error notConnectedMsg, [⟨1, "Tom", none, []⟩])
    ∧ (MongoDB.init "u" "d").update_one [⟨1, "Tom", none, []⟩] "Tom" none none
        = (.error notConnectedMsg, [⟨1, "Tom", none, []⟩])
    ∧ (MongoDB.init "u" "d").delete_one [⟨1, "Tom", none, []⟩] "Tom"
        = (.error notConnectedMsg, [⟨1, "Tom", none, []⟩])
    ∧ (MongoDB.init "u" "d").delete_all [⟨1, "Tom", none, []⟩]
        = (.error notConnectedMsg, [⟨1, "Tom", none, []⟩]) :=
  ops_closed_not_connected (MongoDB.init "u" "d") rfl [⟨1, "Tom", none, []⟩]
    1 "Tom" none none

/-- Claim C9: the store's `client` and `db` handles are both absent (closed)
or both present (open): the constructor starts consistent, and `open`,
`__enter__`, `_close` (hence `close`, `__exit__` and `__del__`) preserve
consistency; `open` is a no-op when the store is already open, and `_close`
is idempotent, so calling close any number of times is safe.  The collection
operations never assign the handles, so they preserve the invariant by
construction. -/
theorem handles_invariant (u d : String) (m : MongoDB)
    (r : Except String (Nat × Nat)) (h : m.handles_consistent = true) :
    (MongoDB.init u d).handles_consistent = true
    ∧ ((m.open_conn r).1).handles_consistent = true
    ∧ ((m.enter_ctx r).1).handles_consistent = true
    ∧ (m.close_conn).handles_consistent = true
    ∧ (m.close).handles_consistent = true
    ∧ (m.exit_ctx).handles_consistent = true
    ∧ (m.is_opened = true → m.open_conn r = (m, none) ∧ m.enter_ctx r = (m, none))
    ∧ MongoDB.close_conn (MongoDB.close_conn m) = MongoDB.close_conn m := by
  obtain ⟨u0, d0, cl, db⟩ := m
  cases cl <;> cases db <;>
    first
      | (cases r <;>
          simp [MongoDB.init, MongoDB.handles_consistent, MongoDB.open_conn,
            MongoDB.enter_ctx, MongoDB.close_conn, MongoDB.close,
            MongoDB.exit_ctx, MongoDB.is_opened] <;> done)
      | simp [MongoDB.handles_consistent] at h

/-- Witness for C9 on the freshly constructed store and a successful
`_open` outcome. -/
theorem handles_invariant_witness :
    (MongoDB.init "u" "d").handles_consistent = true
    ∧ (((MongoDB.init "u" "d").open_conn (.ok (0, 0))).1).handles_consistent = true
    ∧ (((MongoDB.init "u" "d").enter_ctx (.ok (0, 0))).1).handles_consistent = true
    ∧ ((MongoDB.init "u" "d").close_conn).handles_consistent = true
    ∧ ((MongoDB.init "u" "d").close).handles_consistent = true
    ∧ ((MongoDB.init "u" "d").exit_ctx).handles_consistent = true
    ∧ ((MongoDB.init "u" "d").is_opened = true →
        (MongoDB.init "u" "d").open_conn (.ok (0, 0)) = (MongoDB.init "u" "d", none)
        ∧ (MongoDB.init "u" "d").enter_ctx (.ok (0, 0)) = (MongoDB.init "u" "d", none))
    ∧ MongoDB.close_conn (MongoDB.close_conn (MongoDB.init "u" "d"))
        = MongoDB.close_conn (MongoDB.init "u" "d") :=
  handles_invariant "u" "d" (MongoDB.init "u" "d") (.ok (0, 0)) rfl

/-! ## CLI dispatcher (main.py lines 203-282)

`cli` builds an argparse parser whose positional `action` argument has
`choices=Actions.values()`; on an action outside the choices (or an
unparsable flag) argparse prints a usage error and calls `sys.exit(2)`,
raising `SystemExit(2)` — which derives from `BaseException`, not
`Exception`, so the surrounding `except Exception` clause does NOT catch
it and the process exits with code 2.  With parsed arguments the body
runs `with MongoDB(uri, dbname) as db:` and dispatches on the action; any
`Exception` raised by the open or by a store operation is caught by the
`except Exception` clause, printed, and swallowed, after which `exit(0)`
runs.  Each `print` call site is modelled by one `Msg` constructor. -/
inductive Msg where
  | insertInfo (name : String)
  | catDoc (cat : Cat)
  | notAdded (name : String)
  | cannotCreateWithoutName
  | readInfo (name : String)
  | notFoundInfo (name : String)
  | readAllInfo
  | emptyCollection
  | updateInfo (name : String)
  | cannotUpdateWithoutName
  | deleteInfo (name : String)
  | deleteAllInfo
  | deletedRecords (n : Nat)
  | wrongAction
  | errorText (s : String)
deriving DecidableEq

/-- The `Actions` enum (main.py lines 203-211). -/
inductive Actions where
  | create
  | read
  | update
  | delete
deriving DecidableEq

/-- `Actions.values()` (main.py lines 209-211), used as the argparse
`choices` for the positional `action` argument. -/
def Actions.values : List String :=
  ["create", "read", "update", "delete"]

/-- `Actions(args.action)`: the enum member whose value is the given string
(`none` models the `ValueError` for a string outside the enum, which the
`choices` check already rules out). -/
def Actions.ofString (s : String) : Option Actions :=
  if s = "create" then some .create
  else if s = "read" then some .read
  else if s = "update" then some .update
  else if s = "delete" then some .delete
  else none

/-- The parsed command line: positional `action` plus the optional flags
`--name`, `--age` and `--features` (main.py lines 220-223). -/
structure CliArgs where
  action : String
  name : Option String
  age : Option Int
  features : Option (List String)

/-- The outcome of the `match` dispatch block (main.py lines 230-277): the
messages printed so far, the resulting collection, and the message of an
exception escaping the block, if any. -/
structure DispatchOut where
  out : List Msg
  coll : Collection
  raised : Option String

/-- The dispatch block (main.py lines 230-277) on an open store `db`.  The
`fail` parameter injects a failure of the underlying database operation
(the `RuntimeError` the store methods raise on an `OperationFailure`): the
header line has already been printed when the operation raises. -/
def cliDispatch (db : MongoDB) (args : CliArgs) (c : Collection)
    (fail : Option String) : DispatchOut :=
  match Actions.ofString args.action with
  | some .create =>
    match args.name with
    | some n =>
      match fail with
      | some msg => ⟨[.insertInfo n], c, some msg⟩
      | none =>
        match db.create_one c n args.age args.features with
        | (.ok (some cat), c2) => ⟨[.insertInfo n, .catDoc cat], c2, none⟩
        | (.ok none, c2) => ⟨[.insertInfo n, .notAdded n], c2, none⟩
        | (.error e, c2) => ⟨[.insertInfo n], c2, some e⟩
    | none => ⟨[.cannotCreateWithoutName], c, none⟩
  | some .read =>
    match args.name with
    | some n =>
      match fail with
      | some msg => ⟨[.readInfo n], c, some msg⟩
      | none =>
        match db.read_one c n with
        | (.ok (some cat), c2) => ⟨[.readInfo n, .catDoc cat], c2, none⟩
        | (.ok none, c2) => ⟨[.readInfo n, .notFoundInfo n], c2, none⟩
        | (.error e, c2) => ⟨[.readInfo n], c2, some e⟩
    | none =>
      match fail with
      | some msg => ⟨[.readAllInfo], c, some msg⟩
      | none =>
        match db.read_all c with
        | (.ok cats, c2) =>
          if cats.isEmpty then ⟨[.readAllInfo, .emptyCollection], c2, none⟩
          else ⟨.readAllInfo :: cats.map Msg.catDoc, c2, none⟩
        | (.error e, c2) => ⟨[.readAllInfo], c2, some e⟩
  | some .update =>
    match args.name with
    | some n =>
      match fail with
      | some msg => ⟨[.updateInfo n], c, some msg⟩
      | none =>
        match db.update_one c n args.age args.features with
        | (.ok (some cat), c2) => ⟨[.updateInfo n, .catDoc cat], c2, none⟩
        | (.ok none, c2) => ⟨[.updateInfo n, .notFoundInfo n], c2, none⟩
        | (.error e, c2) => ⟨[.updateInfo n], c2, some e⟩
    | none => ⟨[.cannotUpdateWithoutName], c, none⟩
  | some .delete =>
    match args.name with
    | some n =>
      match fail with
      | some msg => ⟨[.deleteInfo n], c, some msg⟩
      | none =>
        match db.delete_one c n with
        | (.ok k, c2) => ⟨[.deleteInfo n, .deletedRecords k], c2, none⟩
        | (.error e, c2) => ⟨[.deleteInfo n], c2, some e⟩
    | none =>
      match fail with
      | some msg => ⟨[.deleteAllInfo], c, some msg⟩
      | none =>
        match db.delete_all c with
        | (.ok k, c2) => ⟨[.deleteAllInfo, .deletedRecords k], c2, none⟩
        | (.error e, c2) => ⟨[.deleteAllInfo], c2, some e⟩
  | none => ⟨[.wrongAction], c, none⟩

/-- The observable outcome of one CLI invocation: the process exit code,
everything printed (in order), and the final collection state. -/
structure CliResult where
  exitCode : Nat
  output : List Msg
  finalCollection : Collection

/-- One invocation of `cli` (main.py lines 213-282).  `openResult` is the
outcome of `MongoClient`/`get_database` inside `_open`; `fail` injects a
database-operation failure during dispatch.  An action outside the argparse
choices exits with `SystemExit(2)`, uncaught by `except Exception`; inside
the `with` block, an escaping exception is printed by the `except` clause
and the process still reaches `exit(0)`. -/
def cli (uri dbname : String) (args : CliArgs) (c : Collection)
    (openResult : Except String (Nat × Nat)) (fail : Option String) :
    CliResult :=
  if args.action ∈ Actions.values then
    match ((MongoDB.init uri dbname).enter_ctx openResult).2 with
    | some e => ⟨0, [.errorText e], c⟩
    | none =>
      let d := cliDispatch ((MongoDB.init uri dbname).enter_ctx openResult).1
        args c fail
      match d.raised with
      | some e => ⟨0, d.out ++ [.errorText e], d.coll⟩
      | none => ⟨0, d.out, d.coll⟩
  else ⟨2, [], c⟩

/-! ## Theorems for claims C3 and C10 -/

/-- Claim C3, counterexample: invoking the CLI with the action string
`"drop"` — outside the argparse choices — exits with code 2, not 0: argparse
raises `SystemExit(2)`, which the `except Exception` clause does not catch. -/
theorem cli_invalid_action_exits_two :
    (cli "u" "d" ⟨"drop", none, none, none⟩ [] (.ok (0, 0)) none).exitCode = 2
    ∧ (cli "u" "d" ⟨"drop", none, none, none⟩ [] (.ok (0, 0)) none).exitCode ≠ 0 := by
  decide

/-- Claim C3 as amended: for every invocation whose action string is one of
the argparse choices (create/read/update/delete), the process exits with
code 0 whatever the flags, the open outcome and any error raised during a
database operation — those errors are caught, printed and swallowed; an
action outside the choices instead exits with argparse's code 2 via
`SystemExit`, which `except Exception` does not catch. -/
theorem cli_parsed_action_exits_zero (uri dbname : String) (args : CliArgs)
    (c : Collection) (r : Except String (Nat × Nat)) (fail : Option String)
    (h : args.action ∈ Actions.values) :
    (cli uri dbname args c r fail).exitCode = 0 := by
  unfold cli
  rw [if_pos h]
  split
  · rfl
  · dsimp only
    split <;> rfl

/-- Witness for C3's amended theorem: a concrete valid invocation (a `read`
whose database operation fails) still exits 0. -/
theorem cli_parsed_action_exits_zero_witness :
    (cli "u" "d" ⟨"read", some "Tom", none, none⟩ [] (.ok (0, 0))
      (some "Operation failed: boom")).exitCode = 0 :=
  cli_parsed_action_exits_zero "u" "d" ⟨"read", some "Tom", none, none⟩ []
    (.ok (0, 0)) (some "Operation failed: boom") (by decide)

/-- Claim C10: invoking the delete action without `--name` dispatches to
`delete_all`, printing the total deleted count and emptying the collection,
whereas create and update without `--name` are rejected with a message and
leave the collection untouched. -/
theorem cli_delete_without_name (uri dbname : String) (c : Collection)
    (age : Option Int) (fs : Option (List String)) (h1 h2 : Nat) :
    (cli uri dbname ⟨"delete", none, age, fs⟩ c (.ok (h1, h2)) none).exitCode = 0
    ∧ (cli uri dbname ⟨"delete", none, age, fs⟩ c (.ok (h1, h2)) none).output
        = [.deleteAllInfo, .deletedRecords c.length]
    ∧ (cli uri dbname ⟨"delete", none, age, fs⟩ c (.ok (h1, h2)) none).finalCollection
        = []
    ∧ cli uri dbname ⟨"create", none, age, fs⟩ c (.ok (h1, h2)) none
        = ⟨0, [.cannotCreateWithoutName], c⟩
    ∧ cli uri dbname ⟨"update", none, age, fs⟩ c (.ok (h1, h2)) none
        = ⟨0, [.cannotUpdateWithoutName], c⟩ := by
  refine ⟨?_, ?_, ?_, ?_, ?_⟩ <;>
    simp [cli, Actions.values, Actions.ofString, cliDispatch, MongoDB.init,
      MongoDB.enter_ctx, MongoDB.is_opened, MongoDB.delete_all]
